import Mathlib

/-!
Verification of the S3 public-file manager (`s3_public_file.py`).

The Python source is shallowly embedded: object listings become `List S3Object`,
the boto3 client becomes an abstract `Store` of pure oracles (listing pages and
per-key ACL outcomes), and the publishing loop becomes a structurally recursive
function that additionally records the trace of storage calls it performs, so
that "never invokes the mutation" and "no retry" become provable statements.
Python integers are modelled as `Int` where the source mutates counters.
-/

namespace S3Spec

/-- ObjectRecord: one entry of an S3 listing (`page['Contents']` element):
key, size in bytes.  Last-modified is carried by the source but never read
by the algorithms under verification, so it is omitted. -/
structure S3Object where
  key : String
  size : Nat
  deriving Repr, DecidableEq

/-- AdapterError wraps a storage-layer failure (`botocore ClientError`). -/
structure AdapterError where
  msg : String
  deriving Repr, DecidableEq

/-- One page returned by the `list_objects_v2` paginator: its `Contents`
(empty list when the page has no `Contents` field) and its `CommonPrefixes`. -/
structure Page where
  contents : List S3Object
  commonPfx : List String
  deriving Repr, DecidableEq

/-- The storage back end, abstracted as pure oracles:
`pages b p r` is the sequence the paginator yields for bucket `b`,
prefix-filter `p`, recursive flag `r` (each step either a page or a
`ClientError` raised during iteration), and `acl b k` is the outcome of
`put_object_acl(Bucket=b, Key=k, ACL='public-read')`. -/
structure Store where
  pages : String → String → Bool → List (Except AdapterError Page)
  acl : String → String → Except AdapterError Unit

/-- Accumulate the `Contents` of the paginator's pages, propagating the first
`ClientError` (the source's `try` block discards everything on an exception). -/
def collectContents : List (Except AdapterError Page) → Except AdapterError (List S3Object)
  | [] => .ok []
  | .error e :: _ => .error e
  | .ok pg :: rest =>
    match collectContents rest with
    | .ok objs => .ok (pg.contents ++ objs)
    | .error e => .error e

/-- `S3PublicManager.list_objects`: extend `objects` with every page's
`Contents`; `CommonPrefixes` are only logged; on `ClientError` return `[]`. -/
def list_objects (st : Store) (bucket_name pfx : String) (recursive : Bool) : List S3Object :=
  match collectContents (st.pages bucket_name pfx recursive) with
  | .ok objs => objs
  | .error _ => []

/-- `S3PublicManager.make_object_public`: `put_object_acl`, `True` on success,
`False` when the call raises `ClientError`. -/
def make_object_public (st : Store) (bucket_name object_key : String) : Bool :=
  match st.acl bucket_name object_key with
  | .ok _ => true
  | .error _ => false

/-- Python `str.endswith(suffix)`: the suffix's characters are a suffix of
the string's characters.  (Embedded at character level so that the kernel
can evaluate it on concrete inputs.) -/
def pyEndsWith (s suf : String) : Bool :=
  suf.data.isSuffixOf s.data

/-- Worker for `pyReplace`: scan left to right, replacing each
non-overlapping occurrence of `pat`; the fuel argument (initially the
string length) only makes the recursion structural and is never exhausted
before the scan ends. -/
def replaceGo (pat rep : List Char) : Nat → List Char → List Char
  | _, [] => []
  | 0, l => l
  | fuel + 1, c :: rest =>
    if !pat.isEmpty && pat.isPrefixOf (c :: rest)
    then rep ++ replaceGo pat rep fuel ((c :: rest).drop pat.length)
    else c :: replaceGo pat rep fuel rest

/-- Python `str.replace(pat, rep)`: replace every non-overlapping occurrence
of `pat`, scanning left to right.  (All uses in the source have a non-empty
`pat`.) -/
def pyReplace (s pat rep : String) : String :=
  ⟨replaceGo pat.data rep.data s.data.length s.data⟩

/-- The filter at line 498 of the source:
`[obj for obj in objects if not obj['Key'].endswith('/')]`. -/
def work_batch (objects : List S3Object) : List S3Object :=
  objects.filter (fun obj => !(pyEndsWith obj.key "/"))

/-- `os.path.basename`: the part of the path after the last `/`. -/
def basename (s : String) : String :=
  (s.splitOn "/").getLastD ""

/-- `os.path.dirname`: the part of the path before the last `/`. -/
def dirname (s : String) : String :=
  "/".intercalate (s.splitOn "/").dropLast

/-- ProgressDisplay counters and current-file fields; rendering threads are
presentation only and carry no further state read by the publisher. -/
structure ProgressDisplay where
  current_file : String
  current_directory : String
  processed_files : Int
  total_files : Int
  success_count : Int
  failed_count : Int
  is_running : Bool
  deriving Repr, DecidableEq

/-- `ProgressDisplay.start(total_files)`: reset the counters, record the
total, mark running. -/
def ProgressDisplay.start (pd : ProgressDisplay) (total_files : Int) : ProgressDisplay :=
  { pd with
    total_files := total_files
    is_running := true
    processed_files := 0
    success_count := 0
    failed_count := 0 }

/-- `ProgressDisplay.update(current_file, success)`: set current file and
directory, increment `processed_files` and one of the two outcome counters. -/
def ProgressDisplay.update (pd : ProgressDisplay) (current_file : String)
    (success : Bool) : ProgressDisplay :=
  { pd with
    current_file := basename current_file
    current_directory := dirname current_file
    processed_files := pd.processed_files + 1
    success_count := if success then pd.success_count + 1 else pd.success_count
    failed_count := if success then pd.failed_count else pd.failed_count + 1 }

/-- The publish loop's corrective adjustment after a failed mutation
(lines 550-551): `success_count -= 1; failed_count += 1`. -/
def failCorrection (pd : ProgressDisplay) : ProgressDisplay :=
  { pd with
    success_count := pd.success_count - 1
    failed_count := pd.failed_count + 1 }

/-- RunResult: the dictionary returned by `make_objects_public`. -/
structure RunResult where
  success : Nat
  failed : Nat
  total : Nat
  deriving Repr, DecidableEq

/-- Output of the publish loop over `file_objects`: the two counters, the
ordered trace of keys passed to `put_object_acl`, and the final display. -/
structure LoopOut where
  success : Nat
  failed : Nat
  calls : List String
  display : Option ProgressDisplay
  deriving Repr, DecidableEq

/-- The `for i, obj in enumerate(file_objects, 1)` loop of
`make_objects_public` (lines 531-554): optimistic display update, one
`put_object_acl` per object (recorded in `calls`), increment of exactly one
counter, corrective display adjustment on failure, continue to the next
object. -/
def publishLoop (st : Store) (bucket_name : String) :
    List S3Object → Option ProgressDisplay → LoopOut
  | [], disp => { success := 0, failed := 0, calls := [], display := disp }
  | obj :: rest, disp =>
    let disp1 := disp.map (fun pd => pd.update obj.key true)
    let ok := make_object_public st bucket_name obj.key
    let disp2 := if ok then disp1 else disp1.map failCorrection
    let out := publishLoop st bucket_name rest disp2
    { success := if ok then out.success + 1 else out.success
      failed := if ok then out.failed else out.failed + 1
      calls := obj.key :: out.calls
      display := out.display }

/-- Full outcome of `make_objects_public`: the returned RunResult plus the
instrumented traces (ACL calls and listing calls, each `(bucket, prefix-
filter, recursive)`) and the final display state. -/
structure PublishOutcome where
  result : RunResult
  aclCalls : List String
  listCalls : List (String × String × Bool)
  display : Option ProgressDisplay
  deriving Repr, DecidableEq

/-- `S3PublicManager.make_objects_public(bucket_name, prefix, dry_run,
recursive)`.  Mirrors the source: list, diagnostic re-list and early return
when the listing is empty, filter out directory markers, early return when
only markers remain, dry-run branch (display updates but no mutation), or
the publish loop. -/
def make_objects_public (st : Store) (disp : Option ProgressDisplay)
    (bucket_name pfx : String) (dry_run recursive : Bool) : PublishOutcome :=
  let objects := list_objects st bucket_name pfx recursive
  if objects.isEmpty then
    -- lines 467-493: diagnostic full-bucket listing, logged only
    let _all_objects := list_objects st bucket_name "" true
    { result := ⟨0, 0, 0⟩
      aclCalls := []
      listCalls := [(bucket_name, pfx, recursive), (bucket_name, "", true)]
      display := disp }
  else
    let file_objects := work_batch objects
    if file_objects.isEmpty then
      { result := ⟨0, 0, 0⟩
        aclCalls := []
        listCalls := [(bucket_name, pfx, recursive)]
        display := disp }
    else
      let disp0 := disp.map (fun pd => pd.start (Int.ofNat file_objects.length))
      if dry_run then
        let dispD := file_objects.foldl
          (fun d obj => d.map (fun pd => pd.update obj.key true)) disp0
        { result := ⟨0, 0, file_objects.length⟩
          aclCalls := []
          listCalls := [(bucket_name, pfx, recursive)]
          display := dispD }
      else
        let out := publishLoop st bucket_name file_objects disp0
        { result := ⟨out.success, out.failed, file_objects.length⟩
          aclCalls := out.calls
          listCalls := [(bucket_name, pfx, recursive)]
          display := out.display }

end S3Spec

namespace S3Spec

/-! ### Helper lemmas -/

theorem countP_not_add_countP (p : α → Bool) (l : List α) :
    l.countP (fun a => !(p a)) + l.countP p = l.length := by
  induction l with
  | nil => simp
  | cons a l ih =>
    by_cases h : p a = true <;>
      simp [List.countP_cons, h, ← ih] <;> omega

theorem publishLoop_success_add_failed (st : Store) (bucket_name : String)
    (objs : List S3Object) (disp : Option ProgressDisplay) :
    (publishLoop st bucket_name objs disp).success
      + (publishLoop st bucket_name objs disp).failed = objs.length := by
  induction objs generalizing disp with
  | nil => simp [publishLoop]
  | cons obj rest ih =>
    by_cases h : make_object_public st bucket_name obj.key = true
    · have hh := ih (Option.map (fun pd => pd.update obj.key true) disp)
      simp only [publishLoop, h, if_true] at hh ⊢
      simp only [List.length_cons]
      omega
    · have hh := ih ((Option.map (fun pd => pd.update obj.key true) disp).map failCorrection)
      simp only [publishLoop, h, if_false, Bool.false_eq_true] at hh ⊢
      simp only [List.length_cons]
      omega

theorem publishLoop_calls (st : Store) (bucket_name : String)
    (objs : List S3Object) (disp : Option ProgressDisplay) :
    (publishLoop st bucket_name objs disp).calls = objs.map S3Object.key := by
  induction objs generalizing disp with
  | nil => simp [publishLoop]
  | cons obj rest ih => simp [publishLoop, ih]

theorem publishLoop_failed_countP (st : Store) (bucket_name : String)
    (objs : List S3Object) (disp : Option ProgressDisplay) :
    (publishLoop st bucket_name objs disp).failed
      = objs.countP (fun o => !(make_object_public st bucket_name o.key)) := by
  induction objs generalizing disp with
  | nil => simp [publishLoop]
  | cons obj rest ih =>
    by_cases h : make_object_public st bucket_name obj.key = true <;>
      simp [publishLoop, List.countP_cons, h, ih]

/-! ### C3: the WorkBatch filter -/

/-- C3: for every raw object listing, the WorkBatch (the source's
`file_objects`) contains no key ending in `/`; its length plus the excluded
directory-marker count (`dir_markers = len(objects) - len(file_objects)`,
which equals the number of keys ending in `/`) equals the raw listing
length; and it is a sublist of the raw listing, so it preserves listing
order. -/
theorem work_batch_spec (objects : List S3Object) :
    (∀ o ∈ work_batch objects, pyEndsWith o.key "/" = false) ∧
    (work_batch objects).length + (objects.length - (work_batch objects).length)
       = objects.length ∧
    objects.length - (work_batch objects).length
       = objects.countP (fun o => pyEndsWith o.key "/") ∧
    List.Sublist (work_batch objects) objects := by
  have hlen : (work_batch objects).length
      = objects.countP (fun o => !(pyEndsWith o.key "/")) := by
    simpa [work_batch] using
      (List.countP_eq_length_filter (fun o : S3Object => !(pyEndsWith o.key "/")) objects).symm
  have hsum := countP_not_add_countP (fun o : S3Object => pyEndsWith o.key "/") objects
  refine ⟨?_, by omega, by omega, List.filter_sublist objects⟩
  intro o ho
  have := List.of_mem_filter ho
  simpa using this

/-! ### C1: dry run -/

/-- C1: for every store, display, bucket, prefix-filter and recursive flag,
`make_objects_public` with `dry_run = true` performs no `put_object_acl`
call and returns `{success: 0, failed: 0, total: |WorkBatch|}`, where
WorkBatch is the listing with keys ending in `/` removed. -/
theorem dry_run_no_mutation (st : Store) (disp : Option ProgressDisplay)
    (bucket_name pfx : String) (recursive : Bool) :
    (make_objects_public st disp bucket_name pfx true recursive).aclCalls = [] ∧
    (make_objects_public st disp bucket_name pfx true recursive).result
      = ⟨0, 0, (work_batch (list_objects st bucket_name pfx recursive)).length⟩ := by
  unfold make_objects_public
  by_cases h0 : (list_objects st bucket_name pfx recursive).isEmpty
  · have : list_objects st bucket_name pfx recursive = [] := by
      simpa [List.isEmpty_iff] using h0
    simp [h0, this, work_batch]
  · by_cases h1 : (work_batch (list_objects st bucket_name pfx recursive)).isEmpty
    · have : (work_batch (list_objects st bucket_name pfx recursive)).length = 0 := by
        simpa [List.isEmpty_iff, List.length_eq_zero] using h1
      simp [h0, h1, this]
    · simp [h0, h1]

end S3Spec

namespace S3Spec

/-! ### C2: counts in a real run -/

/-- C2: for a non-empty WorkBatch and any mix of per-object ACL outcomes
(the store's `acl` oracle is arbitrary), `make_objects_public` with
`dry_run = false` returns counts with `success + failed = total =
|WorkBatch|`, and performs exactly one `put_object_acl` per WorkBatch
object, in listing order — no abort, no retry. -/
theorem publish_counts (st : Store) (disp : Option ProgressDisplay)
    (bucket_name pfx : String) (recursive : Bool)
    (h : work_batch (list_objects st bucket_name pfx recursive) ≠ []) :
    (make_objects_public st disp bucket_name pfx false recursive).result.success
      + (make_objects_public st disp bucket_name pfx false recursive).result.failed
      = (make_objects_public st disp bucket_name pfx false recursive).result.total ∧
    (make_objects_public st disp bucket_name pfx false recursive).result.total
      = (work_batch (list_objects st bucket_name pfx recursive)).length ∧
    (make_objects_public st disp bucket_name pfx false recursive).aclCalls
      = (work_batch (list_objects st bucket_name pfx recursive)).map S3Object.key := by
  have hobj : (list_objects st bucket_name pfx recursive).isEmpty = false := by
    rw [List.isEmpty_eq_false]
    intro he
    exact h (by simp [he, work_batch])
  have hwb : (work_batch (list_objects st bucket_name pfx recursive)).isEmpty = false := by
    rwa [List.isEmpty_eq_false]
  unfold make_objects_public
  simp only [hobj, hwb, Bool.false_eq_true, if_false]
  exact ⟨publishLoop_success_add_failed .., trivial, publishLoop_calls ..⟩

/-- Concrete store for exercising C2: one page with two real files and one
directory marker; the ACL call succeeds on `a.txt` and fails on `b.txt`. -/
def stC2 : Store where
  pages := fun _ _ _ => [Except.ok ⟨[⟨"a.txt", 1⟩, ⟨"d/", 0⟩, ⟨"b.txt", 2⟩], []⟩]
  acl := fun _ k => if k = "a.txt" then Except.ok () else Except.error ⟨"denied"⟩

/-- Witness for C2 at a concrete store with one success and one failure. -/
theorem publish_counts_witness :
    (make_objects_public stC2 none "bkt" "p" false true).result.success
      + (make_objects_public stC2 none "bkt" "p" false true).result.failed
      = (make_objects_public stC2 none "bkt" "p" false true).result.total ∧
    (make_objects_public stC2 none "bkt" "p" false true).result.total
      = (work_batch (list_objects stC2 "bkt" "p" true)).length ∧
    (make_objects_public stC2 none "bkt" "p" false true).aclCalls
      = (work_batch (list_objects stC2 "bkt" "p" true)).map S3Object.key :=
  publish_counts stC2 none "bkt" "p" true (by decide)

/-! ### C4: pagination -/

theorem collectContents_map_ok (pages : List Page) :
    collectContents (pages.map Except.ok) = .ok (pages.map Page.contents).flatten := by
  induction pages with
  | nil => simp [collectContents]
  | cons pg rest ih => simp [collectContents, ih]

/-- C4: when the paginator yields pages without error, `list_objects`
returns exactly the concatenation of the pages' `Contents` in page order
(no duplicates beyond the pages' own, no drops), and the result depends
only on the `Contents` — common prefixes of a non-recursive listing are
logged but never added. -/
theorem list_objects_concat (st : Store) (bucket_name pfx : String) (recursive : Bool)
    (pages : List Page)
    (h : st.pages bucket_name pfx recursive = pages.map Except.ok) :
    list_objects st bucket_name pfx recursive = (pages.map Page.contents).flatten ∧
    ∀ (st' : Store) (pages' : List Page),
      st'.pages bucket_name pfx recursive = pages'.map Except.ok →
      pages'.map Page.contents = pages.map Page.contents →
      list_objects st' bucket_name pfx recursive = list_objects st bucket_name pfx recursive := by
  have hmain : list_objects st bucket_name pfx recursive = (pages.map Page.contents).flatten := by
    unfold list_objects
    rw [h, collectContents_map_ok]
  refine ⟨hmain, ?_⟩
  intro st' pages' h' hc
  unfold list_objects
  rw [h, h', collectContents_map_ok, collectContents_map_ok, hc]

/-- Concrete store for exercising C4: two pages followed via a continuation
token, the first with a common-prefix entry. -/
def stC4 : Store where
  pages := fun _ _ _ =>
    [Except.ok ⟨[⟨"a/x.txt", 1⟩, ⟨"a/y.txt", 2⟩], ["a/b/"]⟩,
     Except.ok ⟨[⟨"a/z.txt", 3⟩], []⟩]
  acl := fun _ _ => Except.ok ()

/-- Witness for C4: the two-page listing concatenates to the three objects
in page order. -/
theorem list_objects_concat_witness :
    list_objects stC4 "bkt" "a/" false
      = [⟨"a/x.txt", 1⟩, ⟨"a/y.txt", 2⟩, ⟨"a/z.txt", 3⟩] := by
  have h := (list_objects_concat stC4 "bkt" "a/" false
    [⟨[⟨"a/x.txt", 1⟩, ⟨"a/y.txt", 2⟩], ["a/b/"]⟩, ⟨[⟨"a/z.txt", 3⟩], []⟩] rfl).1
  simpa using h

/-! ### C5: empty listing diagnostics -/

/-- C5: whenever the prefix-filtered listing is empty, `make_objects_public`
performs the full-bucket diagnostic listing (second entry of the listing
trace, with empty prefix-filter and `recursive = True`) and still returns
`{success: 0, failed: 0, total: 0}`; the returned result is the constant
`{0,0,0}` whatever the diagnostic listing yields. -/
theorem empty_listing_diagnostic (st : Store) (disp : Option ProgressDisplay)
    (bucket_name pfx : String) (dry_run recursive : Bool)
    (h : list_objects st bucket_name pfx recursive = []) :
    (make_objects_public st disp bucket_name pfx dry_run recursive).listCalls
      = [(bucket_name, pfx, recursive), (bucket_name, "", true)] ∧
    (make_objects_public st disp bucket_name pfx dry_run recursive).result = ⟨0, 0, 0⟩ := by
  unfold make_objects_public
  simp [h]

/-- Concrete store for exercising C5: no object matches prefix-filter
`missing/`; the full bucket holds one object. -/
def stC5 : Store where
  pages := fun _ p _ => if p = "missing/" then [] else [Except.ok ⟨[⟨"data/a.txt", 1⟩], []⟩]
  acl := fun _ _ => Except.ok ()

/-- Witness for C5 at the concrete store: diagnostic listing recorded,
result `{0,0,0}`. -/
theorem empty_listing_diagnostic_witness :
    (make_objects_public stC5 none "bkt" "missing/" false true).listCalls
      = [("bkt", "missing/", true), ("bkt", "", true)] ∧
    (make_objects_public stC5 none "bkt" "missing/" false true).result = ⟨0, 0, 0⟩ :=
  empty_listing_diagnostic stC5 none "bkt" "missing/" false true (by decide)

end S3Spec

namespace S3Spec

/-! ### C6: storage errors are contained -/

theorem collectContents_error_of_mem (e : AdapterError) :
    ∀ steps : List (Except AdapterError Page), Except.error e ∈ steps →
      ∃ e0, collectContents steps = .error e0 := by
  intro steps hmem
  induction steps with
  | nil => cases hmem
  | cons s rest ih =>
    cases s with
    | error e1 => exact ⟨e1, rfl⟩
    | ok pg =>
      have hr : Except.error e ∈ rest := by
        rcases List.mem_cons.mp hmem with h | h
        · cases h
        · exact h
      obtain ⟨e0, he0⟩ := ih hr
      exact ⟨e0, by simp [collectContents, he0]⟩

/-- C6: storage-layer errors are caught at their point of use and
converted: a `ClientError` during pagination makes `list_objects` return
the empty list, a `ClientError` from `put_object_acl` makes
`make_object_public` return `False`, and in a real (non-dry) run the
returned `failed` count is exactly the number of WorkBatch objects whose
ACL call fails while `put_object_acl` is still issued exactly once per
WorkBatch object (no propagation, no retry). -/
theorem storage_errors_contained (st : Store) (bucket_name pfx object_key : String)
    (recursive : Bool) (e e' : AdapterError)
    (hl : Except.error e ∈ st.pages bucket_name pfx recursive)
    (ha : st.acl bucket_name object_key = Except.error e') :
    list_objects st bucket_name pfx recursive = [] ∧
    make_object_public st bucket_name object_key = false ∧
    ∀ (disp : Option ProgressDisplay) (pfx2 : String),
      (make_objects_public st disp bucket_name pfx2 false recursive).result.failed
        = (work_batch (list_objects st bucket_name pfx2 recursive)).countP
            (fun o => !(make_object_public st bucket_name o.key)) ∧
      (make_objects_public st disp bucket_name pfx2 false recursive).aclCalls
        = (work_batch (list_objects st bucket_name pfx2 recursive)).map S3Object.key := by
  refine ⟨?_, ?_, ?_⟩
  · obtain ⟨e0, he0⟩ := collectContents_error_of_mem e _ hl
    unfold list_objects
    rw [he0]
  · unfold make_object_public
    rw [ha]
  · intro disp pfx2
    unfold make_objects_public
    by_cases h0 : (list_objects st bucket_name pfx2 recursive).isEmpty
    · have h0' : list_objects st bucket_name pfx2 recursive = [] := by
        simpa [List.isEmpty_iff] using h0
      simp [h0, h0', work_batch]
    · by_cases h1 : (work_batch (list_objects st bucket_name pfx2 recursive)).isEmpty
      · have h1' : work_batch (list_objects st bucket_name pfx2 recursive) = [] := by
          simpa [List.isEmpty_iff] using h1
        simp [h0, h1, h1']
      · simp [h0, h1, publishLoop_failed_countP, publishLoop_calls]

/-- Concrete store for exercising C6: pagination raises for prefix-filter
`err/`, succeeds for `ok/`, and every ACL call fails. -/
def stC6 : Store where
  pages := fun _ p _ =>
    if p = "err/" then [Except.error ⟨"boom"⟩]
    else [Except.ok ⟨[⟨"f.txt", 1⟩], []⟩]
  acl := fun _ _ => Except.error ⟨"denied"⟩

/-- Witness for C6 at the concrete store. -/
theorem storage_errors_contained_witness :
    list_objects stC6 "bkt" "err/" true = [] ∧
    make_object_public stC6 "bkt" "f.txt" = false ∧
    (make_objects_public stC6 none "bkt" "ok/" false true).result.failed
      = (work_batch (list_objects stC6 "bkt" "ok/" true)).countP
          (fun o => !(make_object_public stC6 "bkt" o.key)) ∧
    (make_objects_public stC6 none "bkt" "ok/" false true).aclCalls
      = (work_batch (list_objects stC6 "bkt" "ok/" true)).map S3Object.key :=
  have h := storage_errors_contained stC6 "bkt" "err/" "f.txt" true ⟨"boom"⟩ ⟨"denied"⟩
    (by simp [stC6]) rfl
  ⟨h.1, h.2.1, h.2.2 none "ok/"⟩

/-! ### C9: progress-counter invariant -/

/-- The operations the publisher performs on the display after `start`:
`update(file, success)` and the corrective decrement/increment pair
issued after a failed mutation. -/
inductive DisplayOp where
  | update (current_file : String) (success : Bool)
  | correct
  deriving Repr, DecidableEq

/-- Apply one publisher-side display operation. -/
def applyOp (pd : ProgressDisplay) : DisplayOp → ProgressDisplay
  | .update f s => pd.update f s
  | .correct => failCorrection pd

theorem applyOp_invariant (pd : ProgressDisplay) (op : DisplayOp)
    (h : pd.processed_files = pd.success_count + pd.failed_count) :
    (applyOp pd op).processed_files
      = (applyOp pd op).success_count + (applyOp pd op).failed_count := by
  cases op with
  | update f s =>
    cases s <;> simp [applyOp, ProgressDisplay.update] <;> omega
  | correct =>
    simp only [applyOp, failCorrection]
    omega

/-- C9: starting from `start(n)`, after any sequence of publisher display
operations (updates with either outcome, and the failure correction that
decrements `success_count` and increments `failed_count` together) the
counters satisfy `processed_files = success_count + failed_count`. -/
theorem progress_invariant (pd0 : ProgressDisplay) (n : Int) (ops : List DisplayOp) :
    (ops.foldl applyOp (pd0.start n)).processed_files
      = (ops.foldl applyOp (pd0.start n)).success_count
        + (ops.foldl applyOp (pd0.start n)).failed_count := by
  suffices H : ∀ pd : ProgressDisplay,
      pd.processed_files = pd.success_count + pd.failed_count →
      (ops.foldl applyOp pd).processed_files
        = (ops.foldl applyOp pd).success_count + (ops.foldl applyOp pd).failed_count by
    exact H _ (by simp [ProgressDisplay.start])
  induction ops with
  | nil => intro pd h; simpa
  | cons op rest ih =>
    intro pd h
    exact ih _ (applyOp_invariant pd op h)

end S3Spec

namespace S3Spec

/-! ### Public-URL formatter -/

/-- Python truthiness of the optional endpoint string (`if endpoint_url:`):
`None` and the empty string are falsy. -/
def pyTruthy : Option String → Bool
  | none => false
  | some s => !(s.data.isEmpty)

/-- ServiceProfile: one entry of `S3PublicManager.SERVICES`. -/
structure ServiceProfile where
  name : String
  endpoint_url : Option String
  regions : List String
  deriving Repr, DecidableEq

/-- The static `SERVICES` table of the source (lines 284-310). -/
def SERVICES : List (String × ServiceProfile) :=
  [("aws", ⟨"Amazon S3", none,
      ["us-east-1", "us-west-2", "eu-west-1", "ap-southeast-1"]⟩),
   ("digitalocean", ⟨"DigitalOcean Spaces",
      some "https://\x7bregion\x7d.digitaloceanspaces.com",
      ["nyc3", "ams3", "sgp1", "fra1", "sfo3", "tor1", "blr1"]⟩),
   ("wasabi", ⟨"Wasabi", some "https://s3.\x7bregion\x7d.wasabisys.com",
      ["us-east-1", "us-east-2", "us-west-1", "eu-central-1", "ap-northeast-1"]⟩),
   ("backblaze", ⟨"Backblaze B2", some "https://s3.\x7bregion\x7d.backblazeb2.com",
      ["us-west-002", "eu-central-003"]⟩),
   ("minio", ⟨"MinIO", some "http://localhost:9000", ["us-east-1"]⟩)]

/-- Dictionary lookup `self.SERVICES[service]` (`None` when
`service not in self.SERVICES`). -/
def lookupService (service : String) : Option ServiceProfile :=
  (SERVICES.find? (fun kv => kv.1 == service)).map Prod.snd

/-- `endpoint_template.format(region=region)`: substitute the `region`
placeholder (the only placeholder the templates use). -/
def formatTemplate (tmpl region : String) : String :=
  pyReplace tmpl "\x7bregion\x7d" region

/-- Endpoint resolution in `S3PublicManager.__init__` (lines 331-338):
an explicit (truthy) endpoint wins; else a known service's template is
formatted with the region (`None` for a template-less service); else
`None`. -/
def resolve_endpoint (service region : String) (endpoint_url : Option String) :
    Option String :=
  if pyTruthy endpoint_url then endpoint_url
  else
    match lookupService service with
    | some profile =>
      match profile.endpoint_url with
      | some tmpl => some (formatTemplate tmpl region)
      | none => none
    | none => none

/-- `S3PublicManager.get_public_url` (lines 566-586), a pure function of
the manager's service, region and resolved endpoint plus bucket and key. -/
def get_public_url (service region : String) (endpoint_url : Option String)
    (bucket_name object_key : String) : String :=
  if service = "aws" then
    "https://" ++ (bucket_name ++ (".s3.amazonaws.com/" ++ object_key))
  else if service = "digitalocean" then
    "https://" ++ (bucket_name ++ ("." ++ (region ++ (".digitaloceanspaces.com/" ++ object_key))))
  else if pyTruthy endpoint_url then
    let base_url := pyReplace (pyReplace (endpoint_url.getD "") "https://" "") "http://" ""
    "https://" ++ (bucket_name ++ ("." ++ (base_url ++ ("/" ++ object_key))))
  else
    "https://" ++ (bucket_name ++ (".s3." ++ (region ++ (".amazonaws.com/" ++ object_key))))

/-- Modelled from the spec: the generic virtual-hosted form
`https://` + bucket + `.` + host + `/` + key ("the generic
`\x7bbucket\x7d.\x7bhost\x7d/\x7bkey\x7d` form"). -/
def spec_generic_form (host bucket_name object_key : String) : String :=
  "https://" ++ (bucket_name ++ ("." ++ (host ++ ("/" ++ object_key))))

/-- Modelled from the spec: the AWS regional virtual-hosted form used when
no endpoint is configured. -/
def spec_aws_regional_form (region bucket_name object_key : String) : String :=
  "https://" ++ (bucket_name ++ (".s3." ++ (region ++ (".amazonaws.com/" ++ object_key))))

/-! ### C8: URL formatter branches -/

/-- C8 counterexample: `wasabi` IS one of the known presets of the
`SERVICES` table, its template resolves to an endpoint, and `urlFor` then
produces exactly the generic `bucket.host/key` fallback — refuting
"falls back to the generic form only when the service is not one of the
known presets". -/
theorem url_generic_for_known_preset :
    (SERVICES.map Prod.fst).contains "wasabi" = true ∧
    resolve_endpoint "wasabi" "us-east-1" none = some "https://s3.us-east-1.wasabisys.com" ∧
    get_public_url "wasabi" "us-east-1" (resolve_endpoint "wasabi" "us-east-1" none)
        "bucket1" "k.txt"
      = spec_generic_form "s3.us-east-1.wasabisys.com" "bucket1" "k.txt" :=
  ⟨by decide, by decide, by decide⟩

/-- C8 (amended): `urlFor` uses dedicated virtual-hosted templates exactly
for the services `aws` and `digitalocean` (with the two claimed example
URLs); for every other service — including the known presets `wasabi`,
`backblaze` and `minio` — it falls back to the generic
`bucket.host/key` form built from the scheme-stripped endpoint whenever a
non-empty endpoint is resolved, and to the AWS regional virtual-hosted
form when no endpoint is resolved. -/
theorem url_formatter_branches :
    get_public_url "aws" "us-east-1" (resolve_endpoint "aws" "us-east-1" none)
        "bucket1" "k.txt" = "https://bucket1.s3.amazonaws.com/k.txt" ∧
    get_public_url "digitalocean" "fra1" (resolve_endpoint "digitalocean" "fra1" none)
        "bucket1" "k.txt" = "https://bucket1.fra1.digitaloceanspaces.com/k.txt" ∧
    (∀ (service region e bucket_name object_key : String),
      service ≠ "aws" → service ≠ "digitalocean" → e.data ≠ [] →
      get_public_url service region (some e) bucket_name object_key
        = spec_generic_form (pyReplace (pyReplace e "https://" "") "http://" "")
            bucket_name object_key) ∧
    (∀ (service region bucket_name object_key : String),
      service ≠ "aws" → service ≠ "digitalocean" →
      get_public_url service region none bucket_name object_key
        = spec_aws_regional_form region bucket_name object_key) := by
  refine ⟨by decide, by decide, ?_, ?_⟩
  · intro service region e bucket_name object_key h1 h2 he
    simp [get_public_url, h1, h2, pyTruthy, List.isEmpty_iff, he, spec_generic_form]
  · intro service region bucket_name object_key h1 h2
    simp [get_public_url, h1, h2, pyTruthy, spec_aws_regional_form]

/-- Witness for C8's amended branches at the service `custom`. -/
theorem url_formatter_branches_witness :
    get_public_url "custom" "r1" (some "http://files.example.com") "b" "k.txt"
      = spec_generic_form "files.example.com" "b" "k.txt" ∧
    get_public_url "custom" "r1" none "b" "k.txt"
      = spec_aws_regional_form "r1" "b" "k.txt" :=
  ⟨(url_formatter_branches.2.2.1 "custom" "r1" "http://files.example.com" "b" "k.txt"
      (by decide) (by decide) (by decide)).trans (by decide),
   url_formatter_branches.2.2.2 "custom" "r1" "b" "k.txt" (by decide) (by decide)⟩

/-! ### C10: every URL is https -/

/-- C10: for every service, region, endpoint (even an `http://` one, such
as the MinIO preset), bucket and key, `get_public_url` returns a string
beginning with `https://`: the generic branch strips the endpoint's scheme
and unconditionally prepends `https://`. -/
theorem url_always_https (service region bucket_name object_key : String)
    (endpoint_url : Option String) :
    ∃ rest : List Char,
      (get_public_url service region endpoint_url bucket_name object_key).data
        = "https://".data ++ rest := by
  unfold get_public_url
  split
  · exact ⟨_, rfl⟩
  · split
    · exact ⟨_, rfl⟩
    · split
      · exact ⟨_, rfl⟩
      · exact ⟨_, rfl⟩

end S3Spec

namespace S3Spec

/-! ### Configuration resolution (`main`, lines 714-728) -/

/-- Python `a or b` for optional strings: `None` and `""` are falsy. -/
def pyOrOpt (a b : Option String) : Option String :=
  match a with
  | some s => if s.data.isEmpty then b else some s
  | none => b

/-- Python `a or b` for plain strings: `""` is falsy. -/
def pyOrStr (a b : String) : String :=
  if a.data.isEmpty then b else a

/-- The argparse namespace: `None` (or the documented default) for every
flag the user did not pass.  Defaults: `prefix` is `''`, `recursive` is
`True`, `dry_run` is `False`, `animated_progress` is `True`. -/
structure Args where
  service : Option String
  region : Option String
  access_key : Option String
  secret_key : Option String
  endpoint_url : Option String
  bucket : Option String
  pfx : String
  recursive : Bool
  dry_run : Bool
  animated_progress : Bool
  deriving Repr, DecidableEq

/-- The keys of the loaded JSON configuration file that `main` reads
(each `none` when absent from the file). -/
structure Config where
  service : Option String
  region : Option String
  access_key : Option String
  secret_key : Option String
  endpoint_url : Option String
  bucket_name : Option String
  pfx : Option String
  recursive : Option Bool
  animated_progress : Option Bool
  deriving Repr, DecidableEq

/-- The two credential environment variables `main` consults. -/
structure Env where
  aws_access_key_id : Option String
  aws_secret_access_key : Option String
  deriving Repr, DecidableEq

/-- `hasattr(args, 'recursive')`: argparse defines the `recursive`
attribute on every parse (both `--recursive` and `--no-recursive` share
the dest, with `default=True`), so this is constantly true. -/
def hasattrRecursive (_ : Args) : Bool := true

/-- `hasattr(args, 'animated_progress')`: likewise constantly true, since
argparse always sets the attribute (with `default=True`). -/
def hasattrAnimated (_ : Args) : Bool := true

/-- The parameter values `main` works with after resolution. -/
structure ResolvedConfig where
  service : Option String
  region : Option String
  access_key : Option String
  secret_key : Option String
  endpoint_url : Option String
  bucket_name : Option String
  pfx : String
  recursive : Bool
  dry_run : Bool
  animated_progress : Bool
  deriving Repr, DecidableEq

/-- Lines 720-728 of `main` (plus the direct use of `args.dry_run` at line
770, which never consults the config file): the resolution of every
parameter from CLI arguments, config file and environment. -/
def resolve_params (args : Args) (config : Config) (env : Env) : ResolvedConfig :=
  { service := pyOrOpt args.service config.service
    region := pyOrOpt args.region config.region
    access_key := pyOrOpt (pyOrOpt args.access_key config.access_key) env.aws_access_key_id
    secret_key := pyOrOpt (pyOrOpt args.secret_key config.secret_key) env.aws_secret_access_key
    endpoint_url := pyOrOpt args.endpoint_url config.endpoint_url
    bucket_name := pyOrOpt args.bucket config.bucket_name
    pfx := pyOrStr args.pfx (config.pfx.getD "")
    recursive := if hasattrRecursive args then args.recursive else config.recursive.getD true
    dry_run := args.dry_run
    animated_progress :=
      if hasattrAnimated args then args.animated_progress
      else config.animated_progress.getD true }

/-- The argparse namespace when the user passes no flag at all. -/
def argsDefaults : Args :=
  { service := none, region := none, access_key := none, secret_key := none,
    endpoint_url := none, bucket := none, pfx := "", recursive := true,
    dry_run := false, animated_progress := true }

/-- A configuration file that sets `recursive` and `animated_progress` to
`false` (and nothing else). -/
def cfgFlagsOff : Config :=
  { service := none, region := none, access_key := none, secret_key := none,
    endpoint_url := none, bucket_name := none, pfx := none,
    recursive := some false, animated_progress := some false }

/-! ### C7: precedence CLI > config > env > default -/

/-- C7 (code bug): with no CLI flag given and a config file setting
`recursive: false` and `animated_progress: false`, resolution yields the
built-in defaults `true`/`true` — the config-file values are never
consulted, because `hasattr(args, 'recursive')` and
`hasattr(args, 'animated_progress')` are constantly true (argparse always
sets both attributes); so the config file does not win over the built-in
default, contradicting the claimed precedence.  The `or`-chains for
service, region, credentials, endpoint, bucket and prefix do honour it. -/
theorem config_flag_values_ignored :
    (resolve_params argsDefaults cfgFlagsOff ⟨none, none⟩).recursive = true ∧
    (resolve_params argsDefaults cfgFlagsOff ⟨none, none⟩).animated_progress = true ∧
    cfgFlagsOff.recursive = some false ∧
    cfgFlagsOff.animated_progress = some false ∧
    (resolve_params argsDefaults cfgFlagsOff ⟨none, none⟩).recursive
      ≠ cfgFlagsOff.recursive.getD true :=
  ⟨rfl, rfl, rfl, rfl, by decide⟩

end S3Spec
